import Mathlib

/-!
# ds2api admin console: session and authenticated-request core

A shallow embedding of `webui/src/App.jsx` (`checkAuth`, `authFetch`,
`showMessage`, `handleLogin`, `handleLogout`) and of
`webui/src/components/Login.jsx` (`handleLogin`), followed by theorems about
them.

Conventions of the embedding.

* The browser and the React component state are one explicit record, `World`,
  threaded through every operation.
* `fetch` is an environment function `Network`, from the request to its
  outcome (a thrown transport error or a response); an `await` is modelled as
  one atomic step.
* `Date.now()` is the field `now`, a natural number of milliseconds.  Numbers
  are mathematical integers, which agrees with the IEEE doubles of the source
  for magnitudes below `2 ^ 53`; `NaN` is `none`.
* `trace` is a ghost log of the observable calls, in program order.
-/

namespace Ds2api

/-! ## JavaScript values used by the source -/

/-- A plain object with string values, as an ordered list of own properties. -/
abbrev JsObj := List (String × String)

/-- Property read `o[k]`; `none` is `undefined`. -/
def JsObj.get (o : JsObj) (k : String) : Option String :=
  match o with
  | [] => none
  | (k', v) :: rest => if k' = k then some v else JsObj.get rest k

/-- Property write on a copy: an existing key keeps its position and takes the
new value, a new key is appended. -/
def JsObj.set (o : JsObj) (k v : String) : JsObj :=
  match o with
  | [] => [(k, v)]
  | (k', v') :: rest => if k' = k then (k', v) :: rest else (k', v') :: JsObj.set rest k v

/-- Object spread `{...a, ...b}`: the properties of `b` are written over `a` in order. -/
def JsObj.spread (a b : JsObj) : JsObj :=
  b.foldl (fun acc kv => JsObj.set acc kv.1 kv.2) a

/-- A Web Storage area (`localStorage` or `sessionStorage`): `none` is the
`null` that `getItem` returns for a key that is not stored. -/
abbrev Storage := String → Option String

/-- The storage area with no entries. -/
def Storage.empty : Storage := fun _ => none

/-- The call `storage.getItem(k)`. -/
def Storage.getItem (s : Storage) (k : String) : Option String := s k

/-- The call `storage.setItem(k, v)`, with `v` already converted to a string. -/
def Storage.setItem (s : Storage) (k v : String) : Storage :=
  fun k' => if k' = k then some v else s k'

/-- The call `storage.removeItem(k)`. -/
def Storage.removeItem (s : Storage) (k : String) : Storage :=
  fun k' => if k' = k then none else s k'

/-- Truthiness of a value that is `null` or a string: only a non-empty string is truthy. -/
def truthy (a : Option String) : Bool :=
  match a with
  | some s => s != ""
  | none => false

/-- The expression `a || b` on values that are `null` or a string. -/
def jsOr (a b : Option String) : Option String :=
  if truthy a then a else b

/-- The expression `a || d` where `d` is a string literal: the result is a string. -/
def jsOrStr (a : Option String) (d : String) : String :=
  match a with
  | some s => if s != "" then s else d
  | none => d

/-- White space and line terminators that `parseInt` skips at the start of its input. -/
def isJsSpace (c : Char) : Bool :=
  let n := c.toNat
  n = 9 || n = 10 || n = 11 || n = 12 || n = 13 || n = 32 || n = 160 || n = 5760
    || (8192 ≤ n && n ≤ 8202) || n = 8232 || n = 8233 || n = 8239 || n = 8287
    || n = 12288 || n = 65279

/-- Value of a character as a digit in the given radix (10 or 16), if it is one. -/
def digitValue (radix : Nat) (c : Char) : Option Nat :=
  let n := c.toNat
  if 48 ≤ n ∧ n ≤ 57 then some (n - 48)
  else if radix = 16 ∧ 97 ≤ n ∧ n ≤ 102 then some (n - 87)
  else if radix = 16 ∧ 65 ≤ n ∧ n ≤ 70 then some (n - 55)
  else none

/-- Reads the longest run of digits at the start of `cs`; `acc` is the value of
the digits already read and `seen` says whether there was one. -/
def readDigits (radix : Nat) (cs : List Char) (acc : Nat) (seen : Bool) : Option Nat :=
  match cs with
  | [] => if seen then some acc else none
  | c :: rest =>
    match digitValue radix c with
    | some d => readDigits radix rest (acc * radix + d) true
    | none => if seen then some acc else none

/-- The digits of `parseInt` once the sign is removed: a `0x` or `0X` start selects radix 16. -/
def parseUnsigned (cs : List Char) : Option Nat :=
  match cs with
  | '0' :: 'x' :: rest => readDigits 16 rest 0 false
  | '0' :: 'X' :: rest => readDigits 16 rest 0 false
  | _ => readDigits 10 cs 0 false

/-- The built-in `parseInt(s)` with no radix argument; `none` is `NaN`. -/
def parseInt (s : String) : Option Int :=
  match s.toList.dropWhile isJsSpace with
  | '-' :: rest => (parseUnsigned rest).map (fun n => - (n : Int))
  | '+' :: rest => (parseUnsigned rest).map (fun n => (n : Int))
  | cs => (parseUnsigned cs).map (fun n => (n : Int))

/-- The comparison `x > Date.now()`; every comparison with `NaN` is false. -/
def jsGt (x : Option Int) (now : Nat) : Bool :=
  match x with
  | some v => decide ((now : Int) < v)
  | none => false

/-- The template text of a token that is a string or `null`. -/
def tokenText (t : Option String) : String :=
  match t with
  | some s => s
  | none => "null"

/-! ## Requests and responses -/

/-- The parsed body of the login response, with the fields the handler reads;
`none` is a field that is missing (`undefined`). -/
structure LoginData where
  success : Option Bool
  token : Option String
  expires_in : Option Int
  message : Option String
  detail : Option String
  deriving DecidableEq

/-- What `res.json()` yields. -/
inductive JsonBody where
  /-- The body is not JSON: `res.json()` rejects with an error of this message. -/
  | unparsable (err : String)
  /-- The body is the JSON `null`: a property read on it throws a `TypeError` of this message. -/
  | null (typeErr : String)
  /-- The body is a JSON number, string, boolean or array: each property read is `undefined`. -/
  | scalar
  /-- The body is a JSON object. -/
  | object (d : LoginData)
  deriving DecidableEq

/-- An HTTP response. -/
structure Response where
  status : Nat
  body : JsonBody
  deriving DecidableEq

/-- The property `res.ok`: the status is in the range 200 to 299. -/
def Response.ok (r : Response) : Bool := decide (200 ≤ r.status) && decide (r.status ≤ 299)

/-- The second argument of `fetch`: the `headers` object and every other field. -/
structure RequestInit where
  headers : JsObj
  rest : JsObj
  deriving DecidableEq

/-- A call of `fetch`. -/
structure Request where
  url : String
  init : RequestInit
  deriving DecidableEq

/-- How a call of `fetch` ends. -/
inductive FetchOutcome where
  /-- The promise rejects (transport failure) with an error of this message. -/
  | threw (err : String)
  /-- The promise resolves with a response. -/
  | response (r : Response)
  deriving DecidableEq

/-- The environment behind `fetch`. -/
abbrev Network := Request → FetchOutcome

/-- The values that `fetch` accepts as `headers`, and that a caller may put in
the `headers` field of `options`. -/
inductive HeadersInit where
  /-- A plain object, one own property for each header. -/
  | plain (o : JsObj)
  /-- An instance of `Headers`: the entries live in the instance, which has no
  own enumerable property. -/
  | headersObject (entries : JsObj)
  /-- An array of name and value pairs. -/
  | pairs (ps : List (String × String))
  deriving DecidableEq

/-- The headers that the caller supplies with a `headers` value. -/
def HeadersInit.entries (h : HeadersInit) : JsObj :=
  match h with
  | HeadersInit.plain o => o
  | HeadersInit.headersObject es => es
  | HeadersInit.pairs ps => ps

/-- Own properties of an array of pairs, from index `i` on: the key is the
index and the value is the pair, written as the text `name,value` that the
pair converts to. -/
def indexedPairs (ps : List (String × String)) (i : Nat) : JsObj :=
  match ps with
  | [] => []
  | (k, v) :: rest => (toString i, k ++ "," ++ v) :: indexedPairs rest (i + 1)

/-- The own enumerable properties that an object spread `{...h}` copies. -/
def HeadersInit.ownProperties (h : HeadersInit) : JsObj :=
  match h with
  | HeadersInit.plain o => o
  | HeadersInit.headersObject _ => []
  | HeadersInit.pairs ps => indexedPairs ps 0

/-- The `options` argument of `authFetch`; `headers = none` is an `options`
without a `headers` field, `rest` holds its other fields. -/
structure Options where
  headers : Option HeadersInit
  rest : JsObj
  deriving DecidableEq

/-- The default `options = {}`. -/
def Options.default : Options := ⟨none, []⟩

/-! ## State -/

/-- The `message` state of `App`. -/
structure Message where
  type : String
  text : String
  deriving DecidableEq

/-- Entries of the ghost log. -/
inductive Event where
  | fetch (req : Request)
  | logout
  | onLogin (newToken : Option String)
  | showMessage (type text : String)
  | timerFired (due : Nat)
  deriving DecidableEq

/-- Browser state and component state. -/
structure World where
  /-- The value of `Date.now()`. -/
  now : Nat
  localStorage : Storage
  sessionStorage : Storage
  /-- The `token` state of `App`. -/
  token : Option String
  /-- The `authChecking` state of `App`. -/
  authChecking : Bool
  /-- The `message` state of `App`. -/
  message : Option Message
  /-- Due times of the pending `setTimeout` callbacks; each one is `() => setMessage(null)`. -/
  timers : List Nat
  /-- The `loading` state of `Login`. -/
  loginLoading : Bool
  /-- Ghost log of calls, oldest first. -/
  trace : List Event

/-- The state when the page has just loaded, before `checkAuth` runs: the
`useState` initial values, over the given storage contents. -/
def World.boot (now : Nat) (ls ss : Storage) : World :=
  { now := now, localStorage := ls, sessionStorage := ss, token := none,
    authChecking := true, message := none, timers := [], loginLoading := false,
    trace := [] }

/-- The body of `fetch(req)`: logs the request and asks the environment. -/
def doFetch (net : Network) (req : Request) (w : World) : World × FetchOutcome :=
  ({ w with trace := w.trace ++ [Event.fetch req] }, net req)

/-! ## `App.jsx` -/

/-- The four `removeItem` calls shared by `checkAuth` and `handleLogout`. -/
def clearStorage (w : World) : World :=
  { w with
    localStorage :=
      (w.localStorage.removeItem "ds2api_token").removeItem "ds2api_token_expires"
    sessionStorage :=
      (w.sessionStorage.removeItem "ds2api_token").removeItem "ds2api_token_expires" }

/-- The value of `storedToken` in `checkAuth`. -/
def storedToken (w : World) : Option String :=
  jsOr (w.localStorage.getItem "ds2api_token") (w.sessionStorage.getItem "ds2api_token")

/-- The value of `expiresAt` in `checkAuth`. -/
def storedExpiresAt (w : World) : Option Int :=
  parseInt (jsOrStr (jsOr (w.localStorage.getItem "ds2api_token_expires")
    (w.sessionStorage.getItem "ds2api_token_expires")) "0")

/-- The request that `checkAuth` sends for the stored token. -/
def verifyRequest (stored : Option String) : Request :=
  { url := "/admin/verify"
    init := { headers := [("Authorization", "Bearer " ++ tokenText stored)], rest := [] } }

/-- The function `checkAuth` of the mount effect. -/
def checkAuth (net : Network) (w : World) : World :=
  let stored := storedToken w
  let expiresAt := storedExpiresAt w
  let w1 :=
    if truthy stored && jsGt expiresAt w.now then
      match doFetch net (verifyRequest stored) w with
      | (w', FetchOutcome.response res) =>
        if res.ok then { w' with token := stored } else clearStorage w'
      | (w', FetchOutcome.threw _) => { w' with token := stored }
    else w
  { w1 with authChecking := false }

/-- The function `handleLogout`. -/
def handleLogout (w : World) : World :=
  clearStorage { w with token := none, trace := w.trace ++ [Event.logout] }

/-- The `headers` object that `authFetch` builds. -/
def authHeaders (token : Option String) (options : Options) : JsObj :=
  let spreadOf : JsObj :=
    match options.headers with
    | some h => h.ownProperties
    | none => []
  JsObj.set (JsObj.spread [] spreadOf) "Authorization" ("Bearer " ++ tokenText token)

/-- The call of `fetch` that `authFetch` makes: `fetch(url, { ...options, headers })`. -/
def authRequest (token : Option String) (url : String) (options : Options) : Request :=
  { url := url, init := { headers := authHeaders token options, rest := options.rest } }

/-- The function `authFetch`: the new state, and the response or the message of
the error it throws. -/
def authFetch (net : Network) (url : String) (options : Options) (w : World) :
    World × Except String Response :=
  match doFetch net (authRequest w.token url options) w with
  | (w', FetchOutcome.threw e) => (w', Except.error e)
  | (w', FetchOutcome.response res) =>
    if res.status = 401 then (handleLogout w', Except.error "认证已过期，请重新登录")
    else (w', Except.ok res)

/-- The function `showMessage`. -/
def showMessage (type text : String) (w : World) : World :=
  { w with
    message := some ⟨type, text⟩
    timers := w.timers ++ [w.now + 5000]
    trace := w.trace ++ [Event.showMessage type text] }

/-- The function `handleLogin` of `App`, passed to `Login` as `onLogin`. -/
def handleLogin (newToken : Option String) (w : World) : World :=
  { w with token := newToken, trace := w.trace ++ [Event.onLogin newToken] }

/-- Time passes until the clock reads `t`: every pending timer that is due by
then runs its callback `() => setMessage(null)` and is no longer pending. -/
def elapse (t : Nat) (w : World) : World :=
  let due := w.timers.filter (fun d => decide (d ≤ t))
  { w with
    now := max w.now t
    message := if due.isEmpty then w.message else none
    timers := w.timers.filter (fun d => !decide (d ≤ t))
    trace := w.trace ++ due.map Event.timerFired }

/-! ## `components/Login.jsx` -/

/-- The result of `JSON.stringify` on a string: the quoted string with its escapes. -/
def jsonQuote (s : String) : String :=
  let hex (n : Nat) : Char := if n < 10 then Char.ofNat (48 + n) else Char.ofNat (87 + n)
  let esc (c : Char) : List Char :=
    if c = '\"' then ['\\', '\"']
    else if c = '\\' then ['\\', '\\']
    else if c.toNat = 8 then ['\\', 'b']
    else if c.toNat = 9 then ['\\', 't']
    else if c.toNat = 10 then ['\\', 'n']
    else if c.toNat = 12 then ['\\', 'f']
    else if c.toNat = 13 then ['\\', 'r']
    else if c.toNat < 32 then ['\\', 'u', '0', '0', hex (c.toNat / 16), hex (c.toNat % 16)]
    else [c]
  String.mk ('\"' :: (s.toList.flatMap esc ++ ['\"']))

/-- The request that `handleLogin` sends for the typed admin key. -/
def loginRequest (adminKey : String) : Request :=
  { url := "/admin/login"
    init :=
      { headers := [("Content-Type", "application/json")]
        rest := [("method", "POST"),
                 ("body", "\x7b\"admin_key\":" ++ jsonQuote adminKey ++ "\x7d")] } }

/-- The string that `setItem` stores for `Date.now() + data.expires_in * 1000`. -/
def expiresText (now : Nat) (expires_in : Option Int) : String :=
  match expires_in with
  | some e => toString ((now : Int) + e * 1000)
  | none => "NaN"

/-- The string that `setItem` stores for `data.token`. -/
def tokenField (token : Option String) : String :=
  match token with
  | some t => t
  | none => "undefined"

/-- The success branch of `handleLogin` in `Login`. -/
def loginSuccess (remember : Bool) (d : LoginData) (w : World) : World :=
  let tokenV := tokenField d.token
  let expiresV := expiresText w.now d.expires_in
  let w1 : World :=
    if remember then
      { w with localStorage :=
          (w.localStorage.setItem "ds2api_token" tokenV).setItem "ds2api_token_expires" expiresV }
    else
      { w with sessionStorage :=
          (w.sessionStorage.setItem "ds2api_token" tokenV).setItem "ds2api_token_expires" expiresV }
  let w2 := handleLogin d.token w1
  match d.message with
  | some m => if m != "" then showMessage "warning" m w2 else w2
  | none => w2

/-- The function `handleLogin` of `Login`, with `onLogin` bound to `handleLogin`
of `App` and `onMessage` bound to `showMessage`, as `App` renders it. -/
def Login.handleLogin (net : Network) (adminKey : String) (remember : Bool) (w : World) : World :=
  let w0 := { w with loginLoading := true }
  let w1 :=
    match doFetch net (loginRequest adminKey) w0 with
    | (w', FetchOutcome.threw e) => showMessage "error" ("网络错误: " ++ e) w'
    | (w', FetchOutcome.response res) =>
      match res.body with
      | JsonBody.unparsable e => showMessage "error" ("网络错误: " ++ e) w'
      | JsonBody.null e => showMessage "error" ("网络错误: " ++ e) w'
      | JsonBody.scalar => showMessage "error" "登录失败" w'
      | JsonBody.object d =>
        if res.ok && d.success == some true then loginSuccess remember d w'
        else showMessage "error" (jsOrStr d.detail "登录失败") w'
  { w1 with loginLoading := false }

/-! ## The session as a transition system -/

/-- One backing holds a live credential: a non-empty token entry whose expiry
entry parses to a time after `now` (the test of `checkAuth`, on one backing). -/
def liveIn (s : Storage) (now : Nat) : Bool :=
  truthy (s.getItem "ds2api_token") &&
    jsGt (parseInt (jsOrStr (s.getItem "ds2api_token_expires") "0")) now

/-- Both backings hold a live credential. -/
def bothLive (w : World) : Bool :=
  liveIn w.localStorage w.now && liveIn w.sessionStorage w.now

/-- The two backings hold different credentials. -/
def credentialsDiffer (w : World) : Bool :=
  w.localStorage.getItem "ds2api_token" != w.sessionStorage.getItem "ds2api_token" ||
    w.localStorage.getItem "ds2api_token_expires" !=
      w.sessionStorage.getItem "ds2api_token_expires"

/-- The login form is shown: the auth check is over and there is no token. -/
def unauthenticated (w : World) : Bool := !w.authChecking && !truthy w.token

/-- The steps of the session. -/
inductive Step where
  /-- The page is loaded again in the same tab and `checkAuth` runs. -/
  | startup (net : Network)
  /-- The login form is submitted and the server answers 200 with `success: true`. -/
  | login (adminKey : String) (remember : Bool) (token : String) (expiresIn : Int)
      (message : Option String)
  /-- The logout button. -/
  | logout
  /-- A call of `authFetch` that the server answers with status 401. -/
  | rejected (url : String) (options : Options) (body : JsonBody)
  /-- Time passes. -/
  | tick (ms : Nat)

/-- The login response of a `Step.login`. -/
def loginOk (token : String) (expiresIn : Int) (message : Option String) : Network :=
  fun _ => FetchOutcome.response
    ⟨200, JsonBody.object ⟨some true, some token, some expiresIn, message, none⟩⟩

/-- The effect of a step. -/
def Step.run (s : Step) (w : World) : World :=
  match s with
  | Step.startup net => checkAuth net (World.boot w.now w.localStorage w.sessionStorage)
  | Step.login adminKey remember token expiresIn message =>
    Login.handleLogin (loginOk token expiresIn message) adminKey remember w
  | Step.logout => handleLogout w
  | Step.rejected url options body =>
    (authFetch (fun _ => FetchOutcome.response ⟨401, body⟩) url options w).1
  | Step.tick ms => elapse (w.now + ms) w

/-- When a step can be taken: a login needs the login form. -/
def Step.enabled (s : Step) (w : World) : Prop :=
  match s with
  | Step.login _ _ _ _ _ => unauthenticated w = true
  | _ => True

/-- States reached from a first page load with both backings empty. -/
inductive Reachable : World → Prop where
  | boot (now : Nat) : Reachable (World.boot now Storage.empty Storage.empty)
  | step (s : Step) (w : World) : Reachable w → s.enabled w → Reachable (s.run w)

/-- Runs a list of steps in order. -/
def runSteps (steps : List Step) (w : World) : World :=
  steps.foldl (fun acc s => s.run acc) w

/-- The state after `showMessage("error", "x")` at time `t0` and
`showMessage("warning", "y")` at time `t1`, seen at time `t`, from a page
loaded at time 0 with nothing pending. -/
def twoPosts (t0 t1 t : Nat) : World :=
  elapse t (showMessage "warning" "y" (elapse t1 (showMessage "error" "x"
    (elapse t0 (World.boot 0 Storage.empty Storage.empty)))))

/-- No credential entry is left in either backing. -/
def cleared (w : World) : Prop :=
  w.localStorage.getItem "ds2api_token" = none ∧
  w.localStorage.getItem "ds2api_token_expires" = none ∧
  w.sessionStorage.getItem "ds2api_token" = none ∧
  w.sessionStorage.getItem "ds2api_token_expires" = none

/-- A storage area that holds one credential. -/
def storageWith (token expires : String) : Storage :=
  (Storage.empty.setItem "ds2api_token" token).setItem "ds2api_token_expires" expires

/-! ## States and networks used as examples -/

/-- Network that answers every request with the given status. -/
def answer (status : Nat) : Network :=
  fun _ => FetchOutcome.response ⟨status, JsonBody.scalar⟩

/-- A session that holds the token `tok-1` over a durable credential. -/
def sessionWorld : World :=
  { World.boot 1000 (storageWith "tok-1" "90000") Storage.empty with
    token := some "tok-1", authChecking := false }

/-- Network that is unreachable. -/
def offline : Network := fun _ => FetchOutcome.threw "Failed to fetch"

/-- A page load over a durable credential whose expiry entry is not a number. -/
def garbledWorld : World := World.boot 1000 (storageWith "tok-3" "soon") Storage.empty

/-- A page load over a durable credential that expires exactly now. -/
def expiringWorld : World := World.boot 1000 (storageWith "tok-3" "1000") Storage.empty

/-- A page load over a token entry with no expiry entry in either backing. -/
def tokenOnlyWorld : World :=
  World.boot 1000 (Storage.empty.setItem "ds2api_token" "tok-3") Storage.empty

/-- A page load over a durable credential that is not expired. -/
def durableWorld : World := World.boot 1000 (storageWith "tok-1" "90000") Storage.empty

/-- The login form after a page load in a tab whose sessionStorage holds an
expired credential. -/
def staleSessionWorld : World :=
  checkAuth offline (World.boot 5000 Storage.empty (storageWith "old" "2000"))

/-- The login form after a page load over a localStorage that holds an expired credential. -/
def staleLocalWorld : World :=
  checkAuth offline (World.boot 5000 (storageWith "old" "2000") Storage.empty)

/-- The login form after a first page load with both backings empty. -/
def loginFormWorld : World := checkAuth offline (World.boot 1000 Storage.empty Storage.empty)

/-- Network whose login response is a 200 with `success: true` and no `token`
and no `expires_in`. -/
def bareSuccess : Network :=
  fun _ => FetchOutcome.response ⟨200, JsonBody.object ⟨some true, none, none, none, none⟩⟩

/-- Network whose login response has a body that is not JSON. -/
def garbledLogin : Network :=
  fun _ => FetchOutcome.response ⟨200, JsonBody.unparsable "Unexpected token <"⟩

/-- The first steps of the run below: an expired durable credential is left
in place by the page load, which also hides the live credential of the tab. -/
def clashPrefix : List Step :=
  [ Step.startup offline,
    Step.login "key" true "A" 1 none,
    Step.tick 1500,
    Step.startup offline,
    Step.login "key" false "B" 60 none,
    Step.startup offline ]

/-- The state after `clashPrefix`, from a first page load at time 1000. -/
def clashPrefixWorld : World :=
  runSteps clashPrefix (World.boot 1000 Storage.empty Storage.empty)

/-- The whole run: after `clashPrefix`, one more login with `remember` set. -/
def clashSteps : List Step := clashPrefix ++ [Step.login "key" true "C" 60 none]

/-- The state after `clashSteps`, from a first page load at time 1000. -/
def clashWorld : World := runSteps clashSteps (World.boot 1000 Storage.empty Storage.empty)

/-! ## Basic facts -/

theorem truthy_some {s : String} (h : s ≠ "") : truthy (some s) = true := by
  simp [truthy, h]

theorem clearStorage_cleared (w : World) : cleared (clearStorage w) := by
  simp [cleared, clearStorage, Storage.removeItem, Storage.getItem]

theorem handleLogout_cleared (w : World) : cleared (handleLogout w) := by
  simp [handleLogout, clearStorage_cleared]

theorem liveIn_of_cleared_local {w : World} (h : cleared w) (now : Nat) :
    liveIn w.localStorage now = false := by
  simp [liveIn, h.1, truthy]

theorem liveIn_of_cleared_session {w : World} (h : cleared w) (now : Nat) :
    liveIn w.sessionStorage now = false := by
  simp [liveIn, h.2.2.1, truthy]

/-- A stored token that passed the truthiness test is present in a backing. -/
theorem storedToken_present {w : World} {s : String} (hs : storedToken w = some s) :
    w.localStorage.getItem "ds2api_token" = some s ∨
      w.sessionStorage.getItem "ds2api_token" = some s := by
  unfold storedToken jsOr at hs
  split at hs
  · exact Or.inl hs
  · exact Or.inr hs

/-- The run of `checkAuth` when the stored credential passes the local test. -/
theorem checkAuth_live (net : Network) (w : World) (s : String)
    (hs : storedToken w = some s) (hne : s ≠ "")
    (hexp : jsGt (storedExpiresAt w) w.now = true) :
    checkAuth net w =
      match net (verifyRequest (some s)) with
      | FetchOutcome.response res =>
        if res.ok then
          { w with token := some s, authChecking := false
                   trace := w.trace ++ [Event.fetch (verifyRequest (some s))] }
        else
          { clearStorage w with authChecking := false
                                trace := w.trace ++ [Event.fetch (verifyRequest (some s))] }
      | FetchOutcome.threw _ =>
        { w with token := some s, authChecking := false
                 trace := w.trace ++ [Event.fetch (verifyRequest (some s))] } := by
  simp only [checkAuth, hs, truthy_some hne, hexp, doFetch, Bool.and_self, if_true]
  cases net (verifyRequest (some s)) with
  | threw e => rfl
  | response res =>
    by_cases hok : res.ok = true
    · simp [hok]
    · simp [hok, clearStorage]

/-- The run of `checkAuth` when there is no stored credential that passes the local test. -/
theorem checkAuth_not_live (net : Network) (w : World)
    (h : (truthy (storedToken w) && jsGt (storedExpiresAt w) w.now) = false) :
    checkAuth net w = { w with authChecking := false } := by
  simp only [checkAuth, h]
  rfl

/-! ## `authFetch` and a 401 response -/

/-- C1: when the response to the request of `authFetch` has status 401,
`handleLogout` runs exactly once (one more logout in the log, the token is
`null`, no credential entry is left in either backing) and `authFetch` throws
its session-expired error; with any other status the response is returned as
it is and the token and both backings are unchanged, with no logout. -/
theorem authFetch_logout_on_401 (net : Network) (url : String) (options : Options)
    (w : World) (res : Response)
    (hres : net (authRequest w.token url options) = FetchOutcome.response res) :
    (res.status = 401 →
      (authFetch net url options w).2 = Except.error "认证已过期，请重新登录" ∧
      (authFetch net url options w).1.trace =
        w.trace ++ [Event.fetch (authRequest w.token url options), Event.logout] ∧
      (authFetch net url options w).1.trace.count Event.logout =
        w.trace.count Event.logout + 1 ∧
      (authFetch net url options w).1.token = none ∧
      cleared (authFetch net url options w).1) ∧
    (res.status ≠ 401 →
      (authFetch net url options w).2 = Except.ok res ∧
      (authFetch net url options w).1.trace.count Event.logout = w.trace.count Event.logout ∧
      (authFetch net url options w).1.token = w.token ∧
      (authFetch net url options w).1.localStorage = w.localStorage ∧
      (authFetch net url options w).1.sessionStorage = w.sessionStorage) := by
  constructor
  · intro h401
    have hrun : authFetch net url options w =
        (handleLogout (doFetch net (authRequest w.token url options) w).1,
          Except.error "认证已过期，请重新登录") := by
      simp [authFetch, doFetch, hres, h401]
    rw [hrun]
    refine ⟨rfl, ?_, ?_, rfl, handleLogout_cleared _⟩
    · simp [handleLogout, clearStorage, doFetch]
    · simp [handleLogout, clearStorage, doFetch, List.count_append, List.count_cons]
  · intro hne
    have hrun : authFetch net url options w =
        ((doFetch net (authRequest w.token url options) w).1, Except.ok res) := by
      simp [authFetch, doFetch, hres, hne]
    rw [hrun]
    refine ⟨rfl, ?_, rfl, rfl, rfl⟩
    simp [doFetch, List.count_append, List.count_cons]

theorem authFetch_logout_on_401_witness :
    (authFetch (answer 401) "/admin/config" Options.default sessionWorld).1.token = none ∧
    (authFetch (answer 200) "/admin/config" Options.default sessionWorld).1.token
      = some "tok-1" :=
  ⟨((authFetch_logout_on_401 (answer 401) "/admin/config" Options.default sessionWorld
      ⟨401, JsonBody.scalar⟩ rfl).1 rfl).2.2.2.1,
   ((authFetch_logout_on_401 (answer 200) "/admin/config" Options.default sessionWorld
      ⟨200, JsonBody.scalar⟩ rfl).2 (by decide)).2.2.1⟩

/-! ## `checkAuth` -/

/-- C2: when the startup read yields a non-empty token `s` whose parsed expiry
is after now and the verify request fails at the transport level, `checkAuth`
ends with the token `s` in memory, `authChecking` false, and both backings as
they were. -/
theorem checkAuth_network_failure_keeps_token (net : Network) (w : World) (s e : String)
    (hs : storedToken w = some s) (hne : s ≠ "")
    (hexp : jsGt (storedExpiresAt w) w.now = true)
    (hnet : net (verifyRequest (some s)) = FetchOutcome.threw e) :
    (checkAuth net w).token = some s ∧
    (checkAuth net w).authChecking = false ∧
    (checkAuth net w).localStorage = w.localStorage ∧
    (checkAuth net w).sessionStorage = w.sessionStorage := by
  rw [checkAuth_live net w s hs hne hexp, hnet]
  exact ⟨rfl, rfl, rfl, rfl⟩

theorem checkAuth_network_failure_keeps_token_witness :
    (checkAuth offline (World.boot 1000 Storage.empty (storageWith "tok-2" "90000"))).token
      = some "tok-2" :=
  (checkAuth_network_failure_keeps_token offline
    (World.boot 1000 Storage.empty (storageWith "tok-2" "90000")) "tok-2" "Failed to fetch"
    (by decide) (by decide) (by decide) rfl).1

/-- C3: when the startup read yields a non-empty token whose parsed expiry is
after now and verify answers 401, `checkAuth` leaves the token `null`, sets
`authChecking` to false, and no credential entry is left in localStorage or in
sessionStorage, whichever held the credential. -/
theorem checkAuth_rejected_clears (net : Network) (w : World) (s : String) (res : Response)
    (htok : w.token = none)
    (hs : storedToken w = some s) (hne : s ≠ "")
    (hexp : jsGt (storedExpiresAt w) w.now = true)
    (hnet : net (verifyRequest (some s)) = FetchOutcome.response res)
    (hrej : res.status = 401) :
    (checkAuth net w).token = none ∧
    (checkAuth net w).authChecking = false ∧
    cleared (checkAuth net w) := by
  have hok : res.ok = false := by simp [Response.ok, hrej]
  rw [checkAuth_live net w s hs hne hexp, hnet]
  simp only [hok]
  exact ⟨htok, rfl, clearStorage_cleared w⟩

theorem checkAuth_rejected_clears_witness :
    cleared (checkAuth (answer 401)
      (World.boot 1000 Storage.empty (storageWith "tok-2" "90000"))) :=
  (checkAuth_rejected_clears (answer 401)
    (World.boot 1000 Storage.empty (storageWith "tok-2" "90000")) "tok-2"
    ⟨401, JsonBody.scalar⟩ rfl (by decide) (by decide) (by decide) rfl rfl).2.2

/-- C7: when the startup read yields no token, or a token whose parsed expiry
is not after now (equal to now, earlier, or `NaN`; a missing entry reads as
0), `checkAuth` makes no call of `fetch` (the log is unchanged), leaves the
token as it was (`null` at startup) and sets `authChecking` to false. -/
theorem checkAuth_no_live_credential (net : Network) (w : World)
    (h : truthy (storedToken w) = false ∨ ∀ v, storedExpiresAt w = some v → v ≤ (w.now : Int)) :
    (checkAuth net w).trace = w.trace ∧
    (checkAuth net w).token = w.token ∧
    (checkAuth net w).authChecking = false ∧
    (checkAuth net w).localStorage = w.localStorage ∧
    (checkAuth net w).sessionStorage = w.sessionStorage := by
  have hgate : (truthy (storedToken w) && jsGt (storedExpiresAt w) w.now) = false := by
    rcases h with h | h
    · simp [h]
    · have : jsGt (storedExpiresAt w) w.now = false := by
        cases hv : storedExpiresAt w with
        | none => rfl
        | some v =>
          have := h v hv
          simp only [jsGt, decide_eq_false_iff_not]
          omega
      simp [this]
  rw [checkAuth_not_live net w hgate]
  exact ⟨rfl, rfl, rfl, rfl, rfl⟩

theorem checkAuth_no_live_credential_witness :
    (checkAuth (answer 200) garbledWorld).trace = [] ∧
    (checkAuth (answer 200) expiringWorld).token = none ∧
    (checkAuth (answer 200) tokenOnlyWorld).trace = [] := by
  have h0 : storedExpiresAt garbledWorld = none := by decide
  have h1 : storedExpiresAt expiringWorld = some 1000 := by decide
  have h2 : storedExpiresAt tokenOnlyWorld = some 0 := by decide
  refine ⟨?_, ?_, ?_⟩
  · refine (checkAuth_no_live_credential (answer 200) garbledWorld (Or.inr ?_)).1
    intro v hv
    rw [h0] at hv
    cases hv
  · refine (checkAuth_no_live_credential (answer 200) expiringWorld (Or.inr ?_)).2.1
    intro v hv
    rw [h1] at hv
    cases hv
    decide
  · refine (checkAuth_no_live_credential (answer 200) tokenOnlyWorld (Or.inr ?_)).1
    intro v hv
    rw [h2] at hv
    cases hv
    decide

/-- C9, as stated, fails: a stored credential passes the local test and verify
answers 500; `checkAuth` leaves the token `null` and removes the credential
from storage, as it does for a 401. -/
theorem checkAuth_500_clears_credential :
    storedToken durableWorld = some "tok-1" ∧
    jsGt (storedExpiresAt durableWorld) durableWorld.now = true ∧
    durableWorld.localStorage.getItem "ds2api_token" = some "tok-1" ∧
    (checkAuth (answer 500) durableWorld).token = none ∧
    (checkAuth (answer 500) durableWorld).localStorage.getItem "ds2api_token" = none ∧
    (checkAuth (answer 500) durableWorld).localStorage.getItem "ds2api_token_expires" = none := by
  decide

/-- C9, amended: with a stored credential that passes the local test, a
transport error and a response with `res.ok` (status 200 to 299) both end with
the stored token in memory and both backings as they were; a response without
`res.ok` (401, 500 or any other status outside 200 to 299) leaves the token as
it was and removes every credential entry; so storage is cleared exactly when
verify answers with a status outside 200 to 299. -/
theorem checkAuth_clears_iff_not_ok (net : Network) (w : World) (s : String)
    (hs : storedToken w = some s) (hne : s ≠ "")
    (hexp : jsGt (storedExpiresAt w) w.now = true) :
    (∀ e, net (verifyRequest (some s)) = FetchOutcome.threw e →
      (checkAuth net w).token = some s ∧
      (checkAuth net w).localStorage = w.localStorage ∧
      (checkAuth net w).sessionStorage = w.sessionStorage) ∧
    (∀ res, net (verifyRequest (some s)) = FetchOutcome.response res → res.ok = true →
      (checkAuth net w).token = some s ∧
      (checkAuth net w).localStorage = w.localStorage ∧
      (checkAuth net w).sessionStorage = w.sessionStorage) ∧
    (∀ res, net (verifyRequest (some s)) = FetchOutcome.response res → res.ok = false →
      (checkAuth net w).token = w.token ∧ cleared (checkAuth net w)) ∧
    (cleared (checkAuth net w) ↔
      ∃ res, net (verifyRequest (some s)) = FetchOutcome.response res ∧ res.ok = false) := by
  have hrun := checkAuth_live net w s hs hne hexp
  have hkeep : ∀ w' : World, w'.localStorage = w.localStorage →
      w'.sessionStorage = w.sessionStorage → ¬ cleared w' := by
    intro w' hl hss hc
    rcases storedToken_present hs with h | h
    · have := hc.1
      rw [hl, h] at this
      cases this
    · have := hc.2.2.1
      rw [hss, h] at this
      cases this
  refine ⟨?_, ?_, ?_, ?_⟩
  · intro e he
    rw [hrun, he]
    exact ⟨rfl, rfl, rfl⟩
  · intro res hres hok
    rw [hrun, hres]
    simp [hok]
  · intro res hres hok
    rw [hrun, hres]
    simp only [hok]
    exact ⟨rfl, clearStorage_cleared w⟩
  · constructor
    · intro hc
      cases hout : net (verifyRequest (some s)) with
      | threw e =>
        rw [hrun, hout] at hc
        exact absurd hc (hkeep _ rfl rfl)
      | response res =>
        by_cases hok : res.ok = true
        · rw [hrun, hout] at hc
          simp only [hok, if_true] at hc
          exact absurd hc (hkeep _ rfl rfl)
        · exact ⟨res, rfl, by simpa using hok⟩
    · rintro ⟨res, hres, hok⟩
      rw [hrun, hres]
      simp only [hok]
      exact clearStorage_cleared w

theorem checkAuth_clears_iff_not_ok_witness :
    (checkAuth (answer 204) durableWorld).token = some "tok-1" ∧
    cleared (checkAuth (answer 503) durableWorld) :=
  ⟨((checkAuth_clears_iff_not_ok (answer 204) durableWorld "tok-1"
      (by decide) (by decide) (by decide)).2.1 ⟨204, JsonBody.scalar⟩ rfl (by decide)).1,
   ((checkAuth_clears_iff_not_ok (answer 503) durableWorld "tok-1"
      (by decide) (by decide) (by decide)).2.2.1 ⟨503, JsonBody.scalar⟩ rfl (by decide)).2⟩

/-! ## The headers of `authFetch` -/

theorem JsObj.get_set_self (o : JsObj) (k v : String) : (JsObj.set o k v).get k = some v := by
  induction o with
  | nil => simp [JsObj.set, JsObj.get]
  | cons kv rest ih =>
    obtain ⟨k1, v1⟩ := kv
    by_cases h : k1 = k
    · simp [JsObj.set, JsObj.get, h]
    · simp [JsObj.set, JsObj.get, h, ih]

theorem JsObj.get_set_other (o : JsObj) (k v k2 : String) (hk : k2 ≠ k) :
    (JsObj.set o k v).get k2 = o.get k2 := by
  induction o with
  | nil => simp [JsObj.set, JsObj.get, Ne.symm hk]
  | cons kv rest ih =>
    obtain ⟨k1, v1⟩ := kv
    by_cases h : k1 = k
    · subst h
      simp [JsObj.set, JsObj.get, Ne.symm hk]
    · by_cases h2 : k1 = k2
      · subst h2
        simp [JsObj.set, JsObj.get, hk]
      · simp [JsObj.set, JsObj.get, h, h2, ih]

theorem JsObj.get_of_not_mem (o : JsObj) (k : String) (hk : k ∉ o.map Prod.fst) :
    o.get k = none := by
  induction o with
  | nil => rfl
  | cons kv rest ih =>
    obtain ⟨k1, v1⟩ := kv
    simp only [List.map_cons, List.mem_cons, not_or] at hk
    simp [JsObj.get, Ne.symm hk.1, ih hk.2]

/-- Reading a spread of an object whose keys are distinct: the property of `b`
when it has one, the property of `a` otherwise. -/
theorem JsObj.get_spread (a b : JsObj) (k : String) (hb : (b.map Prod.fst).Nodup) :
    (JsObj.spread a b).get k = (b.get k).orElse (fun _ => a.get k) := by
  induction b generalizing a with
  | nil => simp [JsObj.spread, JsObj.get]
  | cons kv rest ih =>
    obtain ⟨k1, v1⟩ := kv
    simp only [List.map_cons, List.nodup_cons] at hb
    have hstep : JsObj.spread a ((k1, v1) :: rest) = JsObj.spread (JsObj.set a k1 v1) rest := rfl
    rw [hstep, ih _ hb.2]
    by_cases h : k1 = k
    · subst h
      simp [JsObj.get, JsObj.get_of_not_mem rest k1 hb.1, JsObj.get_set_self]
    · simp [JsObj.get, h, JsObj.get_set_other a k1 v1 k (Ne.symm h)]

/-- C6, as stated, fails: the caller passes its `Accept` header in an
instance of `Headers`, which `fetch` accepts; the spread copies no property
of it, so the request of `authFetch` carries `Authorization` alone. -/
theorem authFetch_drops_headers_instance :
    (HeadersInit.headersObject [("accept", "text/plain")]).entries.get "accept"
      = some "text/plain" ∧
    (authRequest (some "tok-1") "/admin/keys"
      ⟨some (HeadersInit.headersObject [("accept", "text/plain")]), [("method", "PUT")]⟩
      ).init.headers.get "accept" = none ∧
    (authRequest (some "tok-1") "/admin/keys"
      ⟨some (HeadersInit.headersObject [("accept", "text/plain")]), [("method", "PUT")]⟩
      ).init.headers = [("Authorization", "Bearer tok-1")] ∧
    (authFetch offline "/admin/keys"
      ⟨some (HeadersInit.headersObject [("accept", "text/plain")]), [("method", "PUT")]⟩
      sessionWorld).1.trace =
      [Event.fetch ⟨"/admin/keys", ⟨[("Authorization", "Bearer tok-1")], [("method", "PUT")]⟩⟩]
    := by
  decide

/-- C6, amended: for every token `t` and every `options`, the one call of
`fetch` that `authFetch` makes has the url of the caller, maps `Authorization`
to `Bearer ` followed by `t`, and passes every field of `options` other than
`headers` as it is; when `headers` is a plain object (with distinct keys)
every caller header with another key is passed with its value, when there is
no `headers` field there is no other header, and when `headers` is an instance
of `Headers` the caller headers are not passed: `Authorization` is the only
header. -/
theorem authFetch_headers (net : Network) (url : String) (options : Options) (w : World)
    (t : String) (htok : w.token = some t) :
    (∃ tl, (authFetch net url options w).1.trace =
        w.trace ++ Event.fetch (authRequest (some t) url options) :: tl ∧
      ∀ r, Event.fetch r ∉ tl) ∧
    (authRequest (some t) url options).url = url ∧
    (authRequest (some t) url options).init.headers.get "Authorization"
      = some ("Bearer " ++ t) ∧
    (authRequest (some t) url options).init.rest = options.rest ∧
    (∀ o, options.headers = some (HeadersInit.plain o) → (o.map Prod.fst).Nodup →
      ∀ k, k ≠ "Authorization" →
        (authRequest (some t) url options).init.headers.get k = o.get k) ∧
    (options.headers = none →
      (authRequest (some t) url options).init.headers = [("Authorization", "Bearer " ++ t)]) ∧
    (∀ es, options.headers = some (HeadersInit.headersObject es) →
      (authRequest (some t) url options).init.headers
        = [("Authorization", "Bearer " ++ t)]) := by
  refine ⟨?_, rfl, ?_, rfl, ?_, ?_, ?_⟩
  · rw [← htok]
    simp only [authFetch, doFetch]
    cases net (authRequest w.token url options) with
    | threw e => exact ⟨[], by simp, by simp⟩
    | response res =>
      by_cases h : res.status = 401
      · refine ⟨[Event.logout], ?_, by simp⟩
        simp [h, handleLogout, clearStorage]
      · exact ⟨[], by simp [h], by simp⟩
  · simp [authRequest, authHeaders, JsObj.get_set_self, tokenText]
  · intro o ho hkeys k hk
    simp only [authRequest, authHeaders, ho, HeadersInit.ownProperties]
    rw [JsObj.get_set_other _ _ _ _ hk, JsObj.get_spread _ _ _ hkeys]
    cases o.get k <;> simp [JsObj.get]
  · intro ho
    simp [authRequest, authHeaders, ho, JsObj.spread, JsObj.set, tokenText]
  · intro es ho
    simp [authRequest, authHeaders, ho, HeadersInit.ownProperties, JsObj.spread, JsObj.set,
      tokenText]

theorem authFetch_headers_witness :
    (authRequest (some "tok-1") "/admin/keys"
      ⟨some (HeadersInit.plain [("Authorization", "Basic x"), ("Accept", "text/plain")]),
        [("method", "PUT")]⟩).init.headers.get "Authorization" = some "Bearer tok-1" ∧
    (authRequest (some "tok-1") "/admin/keys"
      ⟨some (HeadersInit.plain [("Authorization", "Basic x"), ("Accept", "text/plain")]),
        [("method", "PUT")]⟩).init.headers.get "Accept" = some "text/plain" :=
  ⟨(authFetch_headers offline "/admin/keys"
      ⟨some (HeadersInit.plain [("Authorization", "Basic x"), ("Accept", "text/plain")]),
        [("method", "PUT")]⟩ sessionWorld "tok-1" rfl).2.2.1,
   (authFetch_headers offline "/admin/keys"
      ⟨some (HeadersInit.plain [("Authorization", "Basic x"), ("Accept", "text/plain")]),
        [("method", "PUT")]⟩ sessionWorld "tok-1" rfl).2.2.2.2.1 _ rfl (by decide) "Accept"
      (by decide)⟩

/-! ## The login handler -/

/-- The run of the login handler on a 200 response with `success: true`. -/
theorem Login.handleLogin_success (net : Network) (adminKey : String) (remember : Bool)
    (w : World) (res : Response) (d : LoginData)
    (hnet : net (loginRequest adminKey) = FetchOutcome.response res)
    (hbody : res.body = JsonBody.object d) (hok : res.ok = true)
    (hsuccess : d.success = some true) :
    Login.handleLogin net adminKey remember w =
      { loginSuccess remember d
          { w with loginLoading := true
                   trace := w.trace ++ [Event.fetch (loginRequest adminKey)] } with
        loginLoading := false } := by
  simp [Login.handleLogin, doFetch, hnet, hbody, hok, hsuccess]

/-- C4, as stated, fails: a login with `remember` set writes localStorage and
leaves the credential entries of sessionStorage in place, and a login without
it writes sessionStorage and leaves those of localStorage in place. -/
theorem login_leaves_other_backing :
    (Login.handleLogin (loginOk "new" 60 none) "key" true staleSessionWorld
      ).localStorage.getItem "ds2api_token" = some "new" ∧
    (Login.handleLogin (loginOk "new" 60 none) "key" true staleSessionWorld
      ).sessionStorage.getItem "ds2api_token" = some "old" ∧
    (Login.handleLogin (loginOk "new" 60 none) "key" true staleSessionWorld
      ).sessionStorage.getItem "ds2api_token_expires" = some "2000" ∧
    (Login.handleLogin (loginOk "new" 60 none) "key" false staleLocalWorld
      ).sessionStorage.getItem "ds2api_token" = some "new" ∧
    (Login.handleLogin (loginOk "new" 60 none) "key" false staleLocalWorld
      ).localStorage.getItem "ds2api_token" = some "old" ∧
    (Login.handleLogin (loginOk "new" 60 none) "key" false staleLocalWorld
      ).localStorage.getItem "ds2api_token_expires" = some "2000" := by
  decide

/-- C4, amended: a successful login writes the two credential entries of the
backing selected by `remember` (localStorage when set, sessionStorage when
not) and leaves the other backing exactly as it was. -/
theorem login_writes_selected_backing (net : Network) (adminKey : String) (remember : Bool)
    (w : World) (res : Response) (d : LoginData)
    (hnet : net (loginRequest adminKey) = FetchOutcome.response res)
    (hbody : res.body = JsonBody.object d) (hok : res.ok = true)
    (hsuccess : d.success = some true) :
    (remember = true →
      (Login.handleLogin net adminKey remember w).localStorage.getItem "ds2api_token"
        = some (tokenField d.token) ∧
      (Login.handleLogin net adminKey remember w).localStorage.getItem "ds2api_token_expires"
        = some (expiresText w.now d.expires_in) ∧
      (Login.handleLogin net adminKey remember w).sessionStorage = w.sessionStorage) ∧
    (remember = false →
      (Login.handleLogin net adminKey remember w).sessionStorage.getItem "ds2api_token"
        = some (tokenField d.token) ∧
      (Login.handleLogin net adminKey remember w).sessionStorage.getItem "ds2api_token_expires"
        = some (expiresText w.now d.expires_in) ∧
      (Login.handleLogin net adminKey remember w).localStorage = w.localStorage) := by
  rw [Login.handleLogin_success net adminKey remember w res d hnet hbody hok hsuccess]
  constructor
  · intro hr
    subst hr
    cases hm : d.message with
    | none => simp [loginSuccess, hm, handleLogin, Storage.setItem, Storage.getItem]
    | some m =>
      by_cases hme : m = ""
      · simp [loginSuccess, hm, hme, handleLogin, Storage.setItem, Storage.getItem]
      · simp [loginSuccess, hm, hme, handleLogin, showMessage, Storage.setItem,
          Storage.getItem]
  · intro hr
    subst hr
    cases hm : d.message with
    | none => simp [loginSuccess, hm, handleLogin, Storage.setItem, Storage.getItem]
    | some m =>
      by_cases hme : m = ""
      · simp [loginSuccess, hm, hme, handleLogin, Storage.setItem, Storage.getItem]
      · simp [loginSuccess, hm, hme, handleLogin, showMessage, Storage.setItem,
          Storage.getItem]

theorem login_writes_selected_backing_witness :
    (Login.handleLogin (loginOk "new" 60 none) "key" true staleSessionWorld).sessionStorage
      = staleSessionWorld.sessionStorage :=
  ((login_writes_selected_backing (loginOk "new" 60 none) "key" true staleSessionWorld
    ⟨200, JsonBody.object ⟨some true, some "new", some 60, none, none⟩⟩
    ⟨some true, some "new", some 60, none, none⟩ rfl rfl (by decide) rfl).1 rfl).2.2

/-- C8, as stated, fails: on a 200 body with `success: true` and neither
`token` nor `expires_in`, the login handler posts no notification, calls
`onLogin`, and writes the texts `undefined` and `NaN` to localStorage. -/
theorem login_accepts_missing_fields :
    (Login.handleLogin bareSuccess "key" true loginFormWorld).message = none ∧
    (Login.handleLogin bareSuccess "key" true loginFormWorld).trace
      = [Event.fetch (loginRequest "key"), Event.onLogin none] ∧
    loginFormWorld.localStorage.getItem "ds2api_token" = none ∧
    (Login.handleLogin bareSuccess "key" true loginFormWorld).localStorage.getItem
      "ds2api_token" = some "undefined" ∧
    (Login.handleLogin bareSuccess "key" true loginFormWorld).localStorage.getItem
      "ds2api_token_expires" = some "NaN" := by
  decide

/-- C8, amended: whenever the login request does not end in a response with
`res.ok` and a truthy `success` (the request fails, the body cannot be parsed,
is `null` or is not an object, the status is not ok, or `success` is not
true), the login handler posts one `error` notification, does not call
`onLogin`, and leaves the token, localStorage and sessionStorage as they were. -/
theorem login_failure_reports_error (net : Network) (adminKey : String) (remember : Bool)
    (w : World)
    (hbad : ∀ res d, net (loginRequest adminKey) = FetchOutcome.response res →
      res.body = JsonBody.object d → (res.ok && d.success == some true) = false) :
    ∃ text,
      (Login.handleLogin net adminKey remember w).message = some ⟨"error", text⟩ ∧
      (Login.handleLogin net adminKey remember w).trace =
        w.trace ++ [Event.fetch (loginRequest adminKey), Event.showMessage "error" text] ∧
      (Login.handleLogin net adminKey remember w).token = w.token ∧
      (Login.handleLogin net adminKey remember w).localStorage = w.localStorage ∧
      (Login.handleLogin net adminKey remember w).sessionStorage = w.sessionStorage := by
  cases hout : net (loginRequest adminKey) with
  | threw e =>
    exact ⟨"网络错误: " ++ e, by simp [Login.handleLogin, doFetch, hout, showMessage]⟩
  | response res =>
    cases hb : res.body with
    | unparsable e =>
      exact ⟨"网络错误: " ++ e, by simp [Login.handleLogin, doFetch, hout, hb, showMessage]⟩
    | null e =>
      exact ⟨"网络错误: " ++ e, by simp [Login.handleLogin, doFetch, hout, hb, showMessage]⟩
    | scalar =>
      exact ⟨"登录失败", by simp [Login.handleLogin, doFetch, hout, hb, showMessage]⟩
    | object d =>
      have hgate := hbad res d hout hb
      exact ⟨jsOrStr d.detail "登录失败",
        by simp [Login.handleLogin, doFetch, hout, hb, hgate, showMessage]⟩

theorem login_failure_reports_error_witness :
    ∃ text,
      (Login.handleLogin garbledLogin "key" true loginFormWorld).message
        = some ⟨"error", text⟩ ∧
      (Login.handleLogin garbledLogin "key" true loginFormWorld).trace =
        loginFormWorld.trace ++
          [Event.fetch (loginRequest "key"), Event.showMessage "error" text] ∧
      (Login.handleLogin garbledLogin "key" true loginFormWorld).token = loginFormWorld.token ∧
      (Login.handleLogin garbledLogin "key" true loginFormWorld).localStorage
        = loginFormWorld.localStorage ∧
      (Login.handleLogin garbledLogin "key" true loginFormWorld).sessionStorage
        = loginFormWorld.sessionStorage :=
  login_failure_reports_error garbledLogin "key" true loginFormWorld
    (by intro res d hres hb; cases hres; cases hb)

/-! ## Notifications -/

/-- C5, as stated, fails: with the first post at time 0 and the second at time
1000, the second message is shown at time 4999 and is gone at time 5000, which
is the due time of the first timer and lies inside the window of the second. -/
theorem second_message_cleared_by_first_timer :
    (twoPosts 0 1000 4999).message = some ⟨"warning", "y"⟩ ∧
    (twoPosts 0 1000 5000).message = none ∧
    (twoPosts 0 1000 5000).timers = [6000] := by
  decide

/-- C5, amended: for `t0 < t1 < t0 + 5000`, after `showMessage` of `x` at `t0`
and of `y` at `t1`, only `y` is shown from `t1` until `t0 + 5000`; the timer of
the first post fires at `t0 + 5000` and clears `y`; the timer of the second
post is still pending until it fires at `t1 + 5000`, when nothing is shown
(each post adds a timer, none is cancelled). -/
theorem twoPosts_timeline (t0 t1 t : Nat) (h01 : t0 < t1) (h10 : t1 < t0 + 5000)
    (ht : t1 ≤ t) :
    (twoPosts t0 t1 t).message =
      (if t < t0 + 5000 then some ⟨"warning", "y"⟩ else none) ∧
    (twoPosts t0 t1 t).timers =
      (if t < t0 + 5000 then [t0 + 5000, t1 + 5000]
       else if t < t1 + 5000 then [t1 + 5000] else []) ∧
    (twoPosts t0 t1 t).trace =
      [Event.showMessage "error" "x", Event.showMessage "warning" "y"] ++
        (if t < t0 + 5000 then []
         else if t < t1 + 5000 then [Event.timerFired (t0 + 5000)]
         else [Event.timerFired (t0 + 5000), Event.timerFired (t1 + 5000)]) := by
  have hnow : max t0 t1 = t1 := by omega
  have hnot : ¬ t0 + 5000 ≤ t1 := by omega
  by_cases ha : t < t0 + 5000
  · have h1 : ¬ t0 + 5000 ≤ t := by omega
    have h2 : ¬ t1 + 5000 ≤ t := by omega
    simp [twoPosts, elapse, showMessage, World.boot, List.filter, hnot, hnow, ha, h1, h2]
  · by_cases hb : t < t1 + 5000
    · have h1 : t0 + 5000 ≤ t := by omega
      have h2 : ¬ t1 + 5000 ≤ t := by omega
      simp [twoPosts, elapse, showMessage, World.boot, List.filter, hnot, hnow, ha, hb, h1, h2]
    · have h1 : t0 + 5000 ≤ t := by omega
      have h2 : t1 + 5000 ≤ t := by omega
      simp [twoPosts, elapse, showMessage, World.boot, List.filter, hnot, hnow, ha, hb, h1, h2]

theorem twoPosts_timeline_witness :
    (twoPosts 200 1200 5199).message = some ⟨"warning", "y"⟩ ∧
    (twoPosts 200 1200 5200).message = none :=
  ⟨(twoPosts_timeline 200 1200 5199 (by decide) (by decide) (by decide)).1,
   (twoPosts_timeline 200 1200 5200 (by decide) (by decide) (by decide)).1⟩

/-! ## The two backings along a session -/

theorem checkAuth_frame (net : Network) (w : World) :
    (checkAuth net w).now = w.now ∧
    (((checkAuth net w).localStorage = w.localStorage ∧
        (checkAuth net w).sessionStorage = w.sessionStorage) ∨
      cleared (checkAuth net w)) := by
  by_cases hg : (truthy (storedToken w) && jsGt (storedExpiresAt w) w.now) = true
  · simp only [checkAuth, hg, doFetch, if_true]
    cases net (verifyRequest (storedToken w)) with
    | threw e => exact ⟨rfl, Or.inl ⟨rfl, rfl⟩⟩
    | response res =>
      by_cases hok : res.ok = true
      · refine ⟨?_, Or.inl ⟨?_, ?_⟩⟩ <;> simp [hok]
      · simp only [hok]
        exact ⟨rfl, Or.inr (clearStorage_cleared _)⟩
  · rw [checkAuth_not_live net w (by simpa using hg)]
    exact ⟨rfl, Or.inl ⟨rfl, rfl⟩⟩

theorem loginSuccess_frame (remember : Bool) (d : LoginData) (w : World) :
    (loginSuccess remember d w).now = w.now ∧
    (remember = true → (loginSuccess remember d w).sessionStorage = w.sessionStorage) ∧
    (remember = false → (loginSuccess remember d w).localStorage = w.localStorage) := by
  cases remember <;> cases hm : d.message with
  | none => simp [loginSuccess, hm, handleLogin]
  | some m => by_cases hme : m = "" <;> simp [loginSuccess, hm, hme, handleLogin, showMessage]

theorem jsGt_mono (x : Option Int) {a b : Nat} (hab : a ≤ b) (h : jsGt x b = true) :
    jsGt x a = true := by
  cases x with
  | none => simp [jsGt] at h
  | some v =>
    simp only [jsGt, decide_eq_true_eq] at h ⊢
    omega

theorem liveIn_mono (s : Storage) {a b : Nat} (hab : a ≤ b) (h : liveIn s b = true) :
    liveIn s a = true := by
  simp only [liveIn, Bool.and_eq_true] at h ⊢
  exact ⟨h.1, jsGt_mono _ hab h.2⟩

theorem bothLive_of_cleared {w : World} (h : cleared w) : bothLive w = false := by
  simp [bothLive, liveIn_of_cleared_local h]

theorem clashPrefixWorld_reachable : Reachable clashPrefixWorld := by
  have r0 := Reachable.boot 1000
  have r1 := Reachable.step (Step.startup offline) _ r0 trivial
  have r2 := Reachable.step (Step.login "key" true "A" 1 none) _ r1
    (by show unauthenticated _ = true; decide)
  have r3 := Reachable.step (Step.tick 1500) _ r2 trivial
  have r4 := Reachable.step (Step.startup offline) _ r3 trivial
  have r5 := Reachable.step (Step.login "key" false "B" 60 none) _ r4
    (by show unauthenticated _ = true; decide)
  exact Reachable.step (Step.startup offline) _ r5 trivial

theorem clashWorld_reachable : Reachable clashWorld :=
  Reachable.step (Step.login "key" true "C" 60 none) _ clashPrefixWorld_reachable
    (by show unauthenticated _ = true; decide)

/-- C10, as stated, fails: a run of page loads, logins and passing time from
empty backings reaches a state where localStorage holds the credential `C`
and sessionStorage the credential `B`, both with an expiry after now. -/
theorem reachable_two_live_credentials :
    Reachable clashWorld ∧ bothLive clashWorld = true ∧ credentialsDiffer clashWorld = true ∧
    clashWorld.localStorage.getItem "ds2api_token" = some "C" ∧
    clashWorld.sessionStorage.getItem "ds2api_token" = some "B" :=
  ⟨clashWorld_reachable, by decide, by decide, by decide, by decide⟩

theorem jsGt_zero (n : Nat) : jsGt (parseInt "0") n = false := by
  have h0 : parseInt "0" = some 0 := by decide
  rw [h0]
  simp only [jsGt, decide_eq_false_iff_not]
  omega

/-- A live localStorage credential is the one that `checkAuth` reads, and it
passes the local test. -/
theorem gate_of_local_live (w : World) (h : liveIn w.localStorage w.now = true) :
    ∃ s, w.localStorage.getItem "ds2api_token" = some s ∧ s ≠ "" ∧
      storedToken w = some s ∧ jsGt (storedExpiresAt w) w.now = true := by
  simp only [liveIn, Bool.and_eq_true] at h
  obtain ⟨htok, hexp⟩ := h
  cases ht : w.localStorage.getItem "ds2api_token" with
  | none => simp [ht, truthy] at htok
  | some s =>
    have hne : s ≠ "" := by
      intro hs
      simp [ht, hs, truthy] at htok
    have hst : storedToken w = some s := by
      simp [storedToken, jsOr, ht, truthy, hne]
    refine ⟨s, rfl, hne, hst, ?_⟩
    cases hv : w.localStorage.getItem "ds2api_token_expires" with
    | none =>
      rw [hv] at hexp
      have := jsGt_zero w.now
      simp only [jsOrStr] at hexp
      rw [this] at hexp
      cases hexp
    | some e =>
      by_cases he : e = ""
      · rw [hv, he] at hexp
        have := jsGt_zero w.now
        have h2 : jsOrStr (some "") "0" = "0" := by decide
        rw [h2, this] at hexp
        cases hexp
      · have hse : storedExpiresAt w = parseInt (jsOrStr (some e) "0") := by
          simp [storedExpiresAt, jsOr, hv, truthy, he, jsOrStr]
        rw [hse, ← hv]
        exact hexp

/-- The state after a page load: the login form is shown only when
localStorage holds no live credential, and when both backings hold a live
credential the token in memory is the one of localStorage. -/
theorem startup_inv (net : Network) (w : World) :
    (unauthenticated (Step.run (Step.startup net) w) = true →
      liveIn (Step.run (Step.startup net) w).localStorage (Step.run (Step.startup net) w).now
        = false) ∧
    (bothLive (Step.run (Step.startup net) w) = true →
      truthy (Step.run (Step.startup net) w).token = true ∧
      (Step.run (Step.startup net) w).token =
        (Step.run (Step.startup net) w).localStorage.getItem "ds2api_token") := by
  have hrun : Step.run (Step.startup net) w =
      checkAuth net (World.boot w.now w.localStorage w.sessionStorage) := rfl
  rw [hrun]
  cases hl : liveIn w.localStorage w.now with
  | false =>
    obtain ⟨hnow, hst | hc⟩ :=
      checkAuth_frame net (World.boot w.now w.localStorage w.sessionStorage)
    · have hloc : liveIn (checkAuth net (World.boot w.now w.localStorage
          w.sessionStorage)).localStorage
          (checkAuth net (World.boot w.now w.localStorage w.sessionStorage)).now = false := by
        rw [hnow, hst.1]
        exact hl
      exact ⟨fun _ => hloc, fun hb => by simp [bothLive, hloc] at hb⟩
    · exact ⟨fun _ => liveIn_of_cleared_local hc _,
        fun hb => by simp [bothLive_of_cleared hc] at hb⟩
  | true =>
    obtain ⟨s, hls, hne, hst, hexp⟩ :=
      gate_of_local_live (World.boot w.now w.localStorage w.sessionStorage) hl
    have hts : truthy (some s) = true := truthy_some hne
    rw [checkAuth_live net _ s hst hne hexp]
    cases net (verifyRequest (some s)) with
    | threw e =>
      refine ⟨fun hu => ?_, fun _ => ⟨hts, hls.symm⟩⟩
      simp [unauthenticated, hts] at hu
    | response res =>
      by_cases hok : res.ok = true
      · simp only [hok, if_true]
        refine ⟨fun hu => ?_, fun _ => ⟨hts, hls.symm⟩⟩
        simp [unauthenticated, hts] at hu
      · have hok2 : res.ok = false := by simpa using hok
        simp only [hok2]
        refine ⟨fun _ => liveIn_of_cleared_local
          (clearStorage_cleared (World.boot w.now w.localStorage w.sessionStorage)) _,
          fun hb => ?_⟩
        have hc := bothLive_of_cleared
          (clearStorage_cleared (World.boot w.now w.localStorage w.sessionStorage))
        have hb2 : bothLive (clearStorage (World.boot w.now w.localStorage w.sessionStorage))
            = true := hb
        rw [hc] at hb2
        cases hb2

/-- Along every run from empty backings: while the login form is shown
localStorage holds no live credential, and while both backings hold a live
credential the token in memory is the one of localStorage. -/
theorem reachable_inv (w : World) (h : Reachable w) :
    (unauthenticated w = true → liveIn w.localStorage w.now = false) ∧
    (bothLive w = true →
      truthy w.token = true ∧ w.token = w.localStorage.getItem "ds2api_token") := by
  induction h with
  | boot now => simp [unauthenticated, bothLive, liveIn, World.boot, Storage.empty,
      Storage.getItem, truthy]
  | step s w _ hen ih =>
    cases s with
    | startup net => exact startup_inv net w
    | login adminKey remember token expiresIn message =>
      have hloc : liveIn w.localStorage w.now = false := ih.1 hen
      have hrun := Login.handleLogin_success (loginOk token expiresIn message) adminKey
        remember w _ _ rfl rfl rfl rfl
      simp only [Step.run, hrun]
      cases remember with
      | false =>
        obtain ⟨hnow, _, hls⟩ := loginSuccess_frame false
          ⟨some true, some token, some expiresIn, message, none⟩
          { w with loginLoading := true
                   trace := w.trace ++ [Event.fetch (loginRequest adminKey)] }
        have hloc2 : liveIn (loginSuccess false
            ⟨some true, some token, some expiresIn, message, none⟩
            { w with loginLoading := true
                     trace := w.trace ++ [Event.fetch (loginRequest adminKey)] }).localStorage
            w.now = false := by
          rw [hls rfl]
          exact hloc
        refine ⟨fun _ => ?_, fun hb => ?_⟩
        · simpa [hnow] using hloc2
        · simp [bothLive, hnow, hloc2] at hb
      | true =>
        have hfields : ∀ w0 : World,
            (loginSuccess true ⟨some true, some token, some expiresIn, message, none⟩ w0).token
              = some token ∧
            (loginSuccess true ⟨some true, some token, some expiresIn, message, none⟩
              w0).localStorage.getItem "ds2api_token" = some token := by
          intro w0
          cases message with
          | none => simp [loginSuccess, handleLogin, tokenField, Storage.setItem,
              Storage.getItem]
          | some m =>
            by_cases hme : m = "" <;>
              simp [loginSuccess, handleLogin, showMessage, tokenField, hme, Storage.setItem,
                Storage.getItem]
        obtain ⟨htok, hst⟩ := hfields
          { w with loginLoading := true
                   trace := w.trace ++ [Event.fetch (loginRequest adminKey)] }
        refine ⟨fun hu => ?_, fun hb => ?_⟩
        · have hfalse : truthy (some token) = false := by
            simp only [unauthenticated, htok, Bool.and_eq_true, Bool.not_eq_true'] at hu
            exact hu.2
          simp [liveIn, hst, hfalse]
        · have hlive : truthy (some token) = true := by
            simp only [bothLive, liveIn, Bool.and_eq_true] at hb
            have := hb.1.1
            rwa [hst] at this
          exact ⟨by simpa [htok] using hlive, by simp [htok, hst]⟩
    | logout =>
      exact ⟨fun _ => liveIn_of_cleared_local (handleLogout_cleared w) _,
        fun hb => by simp [Step.run, bothLive_of_cleared (handleLogout_cleared w)] at hb⟩
    | rejected url options body =>
      have hrun : Step.run (Step.rejected url options body) w =
          handleLogout (doFetch (fun _ => FetchOutcome.response ⟨401, body⟩)
            (authRequest w.token url options) w).1 := by
        simp [Step.run, authFetch, doFetch]
      rw [hrun]
      exact ⟨fun _ => liveIn_of_cleared_local (handleLogout_cleared _) _,
        fun hb => by simp [bothLive_of_cleared (handleLogout_cleared _)] at hb⟩
    | tick ms =>
      have hnow : (Step.run (Step.tick ms) w).now = w.now + ms := by
        simp [Step.run, elapse]
      have hls : (Step.run (Step.tick ms) w).localStorage = w.localStorage := rfl
      have hss : (Step.run (Step.tick ms) w).sessionStorage = w.sessionStorage := rfl
      have htk : (Step.run (Step.tick ms) w).token = w.token := rfl
      have hun : unauthenticated (Step.run (Step.tick ms) w) = unauthenticated w := rfl
      refine ⟨fun hu => ?_, fun hb => ?_⟩
      · rw [hun] at hu
        rw [hnow, hls]
        cases hl : liveIn w.localStorage (w.now + ms) with
        | false => rfl
        | true =>
          have := liveIn_mono _ (Nat.le_add_right w.now ms) hl
          rw [ih.1 hu] at this
          cases this
      · simp only [bothLive, Bool.and_eq_true, hnow, hls, hss] at hb
        have hb0 : bothLive w = true := by
          simp only [bothLive, Bool.and_eq_true]
          exact ⟨liveIn_mono _ (Nat.le_add_right _ _) hb.1,
            liveIn_mono _ (Nat.le_add_right _ _) hb.2⟩
        rw [htk, hls]
        exact ih.2 hb0

/-- C10, amended: starting from both backings empty, along every finite run
of page loads with any verify outcome, successful logins from the login form,
logouts, 401 answers to `authFetch` and passing time: while the login form is
shown localStorage holds no live credential; the only step that leads from at
most one live backing to two is a login with `remember` set that is made while
sessionStorage holds a live credential (a login without `remember`, a page
load, a logout, a 401 and passing time never do); and while both backings hold
a live credential the session is authenticated with the token of localStorage. -/
theorem two_live_only_after_durable_login (w : World) (h : Reachable w) :
    (unauthenticated w = true → liveIn w.localStorage w.now = false) ∧
    (bothLive w = true →
      truthy w.token = true ∧ w.token = w.localStorage.getItem "ds2api_token") ∧
    (∀ s : Step, s.enabled w → bothLive w = false → bothLive (s.run w) = true →
      (∃ adminKey token expiresIn message,
        s = Step.login adminKey true token expiresIn message) ∧
      liveIn w.sessionStorage w.now = true) := by
  obtain ⟨hform, hboth⟩ := reachable_inv w h
  refine ⟨hform, hboth, ?_⟩
  intro s hen hbefore hafter
  cases s with
  | startup net =>
    obtain ⟨hnow, hst | hc⟩ :=
      checkAuth_frame net (World.boot w.now w.localStorage w.sessionStorage)
    · have : bothLive (Step.run (Step.startup net) w) = bothLive w := by
        simp only [Step.run, bothLive, hnow, hst.1, hst.2]
        rfl
      rw [this, hbefore] at hafter
      cases hafter
    · have := bothLive_of_cleared hc
      simp only [Step.run] at hafter
      rw [this] at hafter
      cases hafter
  | login adminKey remember token expiresIn message =>
    have hloc : liveIn w.localStorage w.now = false := hform hen
    have hrun := Login.handleLogin_success (loginOk token expiresIn message) adminKey
      remember w _ _ rfl rfl rfl rfl
    obtain ⟨hnow, hss, hls⟩ := loginSuccess_frame remember
      ⟨some true, some token, some expiresIn, message, none⟩
      { w with loginLoading := true
               trace := w.trace ++ [Event.fetch (loginRequest adminKey)] }
    simp only [Step.run, hrun, bothLive, Bool.and_eq_true] at hafter
    cases remember with
    | false =>
      have h1 := hafter.1
      rw [hls rfl, hnow] at h1
      rw [hloc] at h1
      cases h1
    | true =>
      have h2 := hafter.2
      rw [hss rfl, hnow] at h2
      exact ⟨⟨adminKey, token, expiresIn, message, rfl⟩, h2⟩
  | logout =>
    have := bothLive_of_cleared (handleLogout_cleared w)
    simp only [Step.run] at hafter
    rw [this] at hafter
    cases hafter
  | rejected url options body =>
    have hrun : Step.run (Step.rejected url options body) w =
        handleLogout (doFetch (fun _ => FetchOutcome.response ⟨401, body⟩)
          (authRequest w.token url options) w).1 := by
      simp [Step.run, authFetch, doFetch]
    rw [hrun, bothLive_of_cleared (handleLogout_cleared _)] at hafter
    cases hafter
  | tick ms =>
    have hnow : (Step.run (Step.tick ms) w).now = w.now + ms := by
      simp [Step.run, elapse]
    have hls : (Step.run (Step.tick ms) w).localStorage = w.localStorage := rfl
    have hss : (Step.run (Step.tick ms) w).sessionStorage = w.sessionStorage := rfl
    simp only [bothLive, Bool.and_eq_true, hnow, hls, hss] at hafter
    have hb0 : bothLive w = true := by
      simp only [bothLive, Bool.and_eq_true]
      exact ⟨liveIn_mono _ (Nat.le_add_right _ _) hafter.1,
        liveIn_mono _ (Nat.le_add_right _ _) hafter.2⟩
    rw [hbefore] at hb0
    cases hb0

theorem two_live_only_after_durable_login_witness :
    Reachable clashWorld ∧ bothLive clashWorld = true ∧
    clashWorld.token = clashWorld.localStorage.getItem "ds2api_token" ∧
    unauthenticated clashPrefixWorld = true ∧
    liveIn clashPrefixWorld.localStorage clashPrefixWorld.now = false ∧
    liveIn clashPrefixWorld.sessionStorage clashPrefixWorld.now = true :=
  ⟨clashWorld_reachable, by decide,
    ((two_live_only_after_durable_login clashWorld clashWorld_reachable).2.1 (by decide)).2,
    by decide,
    (two_live_only_after_durable_login clashPrefixWorld clashPrefixWorld_reachable).1
      (by decide),
    ((two_live_only_after_durable_login clashPrefixWorld clashPrefixWorld_reachable).2.2
      (Step.login "key" true "C" 60 none) (by show unauthenticated _ = true; decide)
      (by decide) (by decide)).2⟩

end Ds2api
